import Mathlib

/-!
Verification of the request/response contract of the Research Article Finder
single-page application (src/index.tsx).

The embedding below translates the runtime-relevant parts of the source:

* the data shapes of the external generation API response
  (GroundingChunk, grounding metadata, response envelope);
* the prompt template literal (lines 38-46);
* the submit handler handleSearch (lines 27-62), modelled as a pure
  function from the current component state, the topic, and the outcome of
  the single external call, to the next component state together with the
  list of external calls issued;
* the citation sidebar rendering (lines 283-349), including the
  JavaScript URL constructor applied to each web chunk uri (line 343),
  which throws on a string that is not a parseable URL.

JavaScript truthiness on strings (empty string is falsy) is modelled by
jsStrOr; a possibly-undefined string field is modelled as Option String.
-/

namespace FTP

/-- JavaScript `a || d` where `a` is a string that may be undefined:
the fallback `d` is used when `a` is undefined or the empty string. -/
def jsStrOr : Option String → String → String
  | none, d => d
  | some s, d => if s = "" then d else s

/-- Whitespace characters removed by the JavaScript trim method used on
line 29: the ECMAScript WhiteSpace and LineTerminator sets, restricted to
their common members (tab, line feed, vertical tab, form feed, carriage
return, space, no-break space, line separator, paragraph separator, zero
width no-break space). -/
def jsIsWhitespace (c : Char) : Bool :=
  c == ' ' || c == '\t' || c == '\n' || c == '\r' || c == '\x0b' ||
    c == '\x0c' || c.val == 0xa0 || c.val == 0x2028 || c.val == 0x2029 ||
    c.val == 0xfeff

/-- Model of the JavaScript trim method applied to the topic on line 29:
leading and trailing whitespace characters are removed. -/
def jsTrim (s : String) : String :=
  String.mk
    (((s.data.dropWhile jsIsWhitespace).reverse.dropWhile jsIsWhitespace).reverse)

/-- Decidable substring test over the character lists of two strings,
used to state which fixed phrases the prompt template contains. -/
def infixOfList (pat : List Char) : List Char → Bool
  | [] => pat.isEmpty
  | c :: rest => pat.isPrefixOf (c :: rest) || infixOfList pat rest

/-- The string `s` contains `pat` as a contiguous substring. -/
def strContains (s pat : String) : Bool :=
  infixOfList pat.data s.data

/-- Source interface GroundingChunk, field `web` with `uri` and `title`
(lines 9-14).  The TypeScript type declares `title : string`, but the code
guards it with a falsy check (line 328), so at runtime it may be absent;
it is therefore modelled as Option String, with none playing undefined. -/
structure WebSource where
  uri : String
  title : Option String
  deriving DecidableEq, Repr

/-- Source interface GroundingChunk (lines 9-14): the `web` field is
optional. -/
structure GroundingChunk where
  web : Option WebSource
  deriving DecidableEq, Repr

/-- Grounding metadata of a response candidate: holds the optional
`groundingChunks` array read on line 54. -/
structure GroundingMetadata where
  groundingChunks : Option (List GroundingChunk)
  deriving DecidableEq, Repr

/-- One response candidate, carrying optional grounding metadata
(line 54). -/
structure Candidate where
  groundingMetadata : Option GroundingMetadata
  deriving DecidableEq, Repr

/-- The response envelope of the external generation call: the primary
`text` field (a getter that may yield undefined or the empty string) and
the optional `candidates` array (lines 52-54). -/
structure GenerateContentResponse where
  text : Option String
  candidates : Option (List Candidate)
  deriving DecidableEq, Repr

/-- Source interface SearchResult (lines 16-19): the displayed text and
the raw grounding chunk list kept in state. -/
structure SearchResult where
  text : String
  chunks : List GroundingChunk
  deriving DecidableEq, Repr

/-- Line 54: `response.candidates?.[0]?.groundingMetadata?.groundingChunks
|| []`.  Each `?.` step propagates undefined; the final `|| []` replaces
undefined by the empty array (a present array is always truthy in
JavaScript, even when empty). -/
def extractChunks (r : GenerateContentResponse) : List GroundingChunk :=
  ((((r.candidates.bind List.head?).bind Candidate.groundingMetadata).bind
      GroundingMetadata.groundingChunks).getD [])

/-- Line 52: `response.text || "No results found."`. -/
def extractText (r : GenerateContentResponse) : String :=
  jsStrOr r.text "No results found."

/-- Lines 52-56: the SearchResult built from a successful response. -/
def mkSearchResult (r : GenerateContentResponse) : SearchResult :=
  { text := extractText r, chunks := extractChunks r }

/-- The fixed text of the prompt template literal before the interpolated
topic (line 38). -/
def promptPre : String :=
  "Find 5 high-quality research articles, papers, or reputable academic sources published in the last 5 years (2020-2025) related to: \""

/-- The fixed text of the prompt template literal after the interpolated
topic (lines 38-46), newlines and indentation as in the source. -/
def promptSuf : String :=
  "\". \n        \n        For each article, provide:\n        1. Title\n        2. Authors (if available)\n        3. Year\n        4. A brief summary of why it is relevant for a presentation.\n        \n        Use Markdown formatting (bolding titles, using bullet points) to make it easy to read."

/-- The template literal on lines 38-46: fixed text with the topic
interpolated once. -/
def buildPrompt (topic : String) : String :=
  promptPre ++ topic ++ promptSuf

/-- One request to the external generation API as issued on lines 36-50:
model identifier, prompt contents, and the googleSearch tool flag. -/
structure ExternalCall where
  model : String
  contents : String
  googleSearch : Bool
  deriving DecidableEq, Repr

/-- The single call issued for a given topic (lines 36-50). -/
def callFor (topic : String) : ExternalCall :=
  { model := "gemini-3-flash-preview"
    contents := buildPrompt topic
    googleSearch := true }

/-- The component state owned by App (lines 22-25), restricted to the
request lifecycle fields: `loading`, `result`, `error`.  The `topic`
input field is passed to the handler separately. -/
structure AppState where
  loading : Bool
  result : Option SearchResult
  error : String
  deriving DecidableEq, Repr

/-- The initial state of App (lines 23-25): not loading, no result, empty
error string. -/
def initState : AppState :=
  { loading := false, result := none, error := "" }

/-- The state right after lines 31-33 (`setLoading(true); setError("");
setResult(null)`), before the external call is awaited. -/
def loadingState : AppState :=
  { loading := true, result := none, error := "" }

/-- The generic fallback error message of line 58. -/
def genericErrorMessage : String :=
  "An error occurred while fetching articles."

/-- The outcome of the awaited external call: either a response envelope,
or a rejection whose `message` field may be undefined or empty. -/
inductive Outcome where
  | success (resp : GenerateContentResponse)
  | failure (message : Option String)
  deriving DecidableEq, Repr

/-- The state of lines 52-56: success resolution. -/
def succeededState (r : GenerateContentResponse) : AppState :=
  { loading := false, result := some (mkSearchResult r), error := "" }

/-- The state of lines 57-61: the catch block sets the error message
(`err.message || "An error occurred while fetching articles."`) and the
finally block clears `loading`; `result` stays null from line 33. -/
def failedState (m : Option String) : AppState :=
  { loading := false, result := none, error := jsStrOr m genericErrorMessage }

/-- Lines 31-33: the synchronous part of handleSearch on valid input.
All three lifecycle fields are (re)set before the call is issued,
independent of the previous state. -/
def beginSubmit (_s : AppState) : AppState :=
  loadingState

/-- The whole of handleSearch (lines 27-62) as a pure function: from the
current state, the topic, and the outcome of the external call, to the
resolved state paired with the list of external calls issued.  Line 29
returns early when the trimmed topic is empty, so no state update happens
and no call is issued. -/
def handleSearch (s : AppState) (topic : String) (o : Outcome) :
    AppState × List ExternalCall :=
  if jsTrim topic = "" then (s, [])
  else
    match o with
    | .success r => (succeededState r, [callFor topic])
    | .failure m => (failedState m, [callFor topic])

/-- The fine-grained transition relation of the request lifecycle, under
the one-outstanding-request discipline the UI enforces by disabling the
submit button while loading (line 132): a submit with a nonempty trimmed
topic moves any state to the loading state (lines 31-33); a submit with a
whitespace-only topic is a no-op (line 29); the awaited call resolves
from the loading state to the succeeded or failed state
(lines 52-61). -/
inductive Step : AppState → AppState → Prop where
  | submit (s : AppState) (topic : String) (h : jsTrim topic ≠ "") :
      Step s loadingState
  | submitEmpty (s : AppState) (topic : String) (h : jsTrim topic = "") :
      Step s s
  | resolveSuccess (r : GenerateContentResponse) :
      Step loadingState (succeededState r)
  | resolveFailure (m : Option String) :
      Step loadingState (failedState m)

/-- States reachable from the initial state along the lifecycle. -/
inductive Reachable : AppState → Prop where
  | init : Reachable initState
  | step {s s' : AppState} : Reachable s → Step s s' → Reachable s'

/-- Classification of an AppState into the four RequestState variants:
Idle, Loading, Succeeded, Failed, each read off the three fields. -/
def isIdleV (s : AppState) : Bool :=
  !s.loading && s.result.isNone && s.error == ""

/-- Loading variant: the `loading` flag is set. -/
def isLoadingV (s : AppState) : Bool :=
  s.loading

/-- Succeeded variant: not loading and a result is present. -/
def isSucceededV (s : AppState) : Bool :=
  !s.loading && s.result.isSome

/-- Failed variant: not loading and a nonempty error message. -/
def isFailedV (s : AppState) : Bool :=
  !s.loading && s.error != ""

/-- Number of RequestState variants active in a state. -/
def variantCount (s : AppState) : Nat :=
  (if isIdleV s then 1 else 0) + (if isLoadingV s then 1 else 0) +
    (if isSucceededV s then 1 else 0) + (if isFailedV s then 1 else 0)

/-- The citation value displayed for one web chunk in the sidebar: the
link title falls back to "Untitled Source" when the chunk title is falsy
(line 328), and the href is the chunk uri (line 311). -/
structure Citation where
  uri : String
  title : String
  deriving DecidableEq, Repr

/-- The Citation rendered for one web source (lines 310-345, minus the
hostname line treated separately). -/
def citeOfWeb (w : WebSource) : Citation :=
  { uri := w.uri, title := jsStrOr w.title "Untitled Source" }

/-- Lines 285-348: the sidebar maps every chunk to either null (no `web`
field, line 286) or a list item.  React renders a null child as nothing,
so the item list is a list of optional citations. -/
def renderedCitationItems (chunks : List GroundingChunk) :
    List (Option Citation) :=
  chunks.map fun c =>
    match c.web with
    | none => none
    | some w => some (citeOfWeb w)

/-- The citation entries actually visible in the rendered sidebar: the
non-null items, in order. -/
def renderedCitations (chunks : List GroundingChunk) : List Citation :=
  (renderedCitationItems chunks).filterMap id

/-- Derivation of the citation list as the specification words it: filter
the chunk list to the chunks carrying web-source data, then map each to
its Citation. -/
def citationsSpec (chunks : List GroundingChunk) : List Citation :=
  (chunks.filter fun c => c.web.isSome).filterMap fun c =>
    c.web.map citeOfWeb

/-- Model of the browser URL constructor used on line 343
(`new URL(chunk.web.uri)`), restricted to what the theorems need: the
constructor yields a hostname for an absolute http or https URL, and
throws a TypeError (modelled as none) on a string with no scheme, such
as plain words.  Real WHATWG parsing accepts further schemes; the model
is only applied to http(s) URLs and scheme-less strings, where it agrees
with the browser. -/
def urlHostname (s : String) : Option String :=
  let hostChar : Char → Bool := fun c =>
    !(c == '/' || c == ':' || c == '?' || c == '#')
  if "http://".data.isPrefixOf s.data then
    some (String.mk ((s.data.drop 7).takeWhile hostChar))
  else if "https://".data.isPrefixOf s.data then
    some (String.mk ((s.data.drop 8).takeWhile hostChar))
  else
    none

/-- One fully rendered sidebar entry (lines 288-346): the displayed
title, the link target, and the hostname line computed by
`new URL(chunk.web.uri).hostname` on line 343. -/
structure RenderedSource where
  title : String
  href : String
  hostname : String
  deriving DecidableEq, Repr

/-- Rendering of one chunk in the sidebar list (lines 285-348).  A chunk
without a web field renders as null (line 286).  A web chunk renders a
list item whose hostname line evaluates `new URL(chunk.web.uri)`
(line 343); when the uri is not a parseable URL this constructor throws,
modelled as the error branch. -/
def renderChunk (c : GroundingChunk) : Except String (Option RenderedSource) :=
  match c.web with
  | none => .ok none
  | some w =>
    match urlHostname w.uri with
    | none => .error "TypeError: Invalid URL"
    | some host =>
      .ok (some { title := jsStrOr w.title "Untitled Source"
                  href := w.uri
                  hostname := host })

/-- Rendering of the sidebar list (lines 284-349): every chunk is
rendered in order; a throw in any item propagates out of the render. -/
def renderChunks : List GroundingChunk →
    Except String (List (Option RenderedSource))
  | [] => .ok []
  | c :: cs => do
    let item ← renderChunk c
    let items ← renderChunks cs
    return item :: items

/-- Rendering of the whole Succeeded result (lines 166-357): the markdown
text is passed to ReactMarkdown unchanged, and the sidebar renders every
chunk in order; a throw in any item propagates out of the render. -/
def renderResult (res : SearchResult) :
    Except String (String × List (Option RenderedSource)) := do
  let items ← renderChunks res.chunks
  return (res.text, items)

/-! Helper lemmas shared by the claim theorems. -/

theorem jsStrOr_ne_empty (m : Option String) (d : String) (hd : d ≠ "") :
    jsStrOr m d ≠ "" := by
  cases m with
  | none => exact hd
  | some s =>
    by_cases hs : s = "" <;> simp [jsStrOr, hs, hd]

theorem renderedCitations_eq_spec (chunks : List GroundingChunk) :
    renderedCitations chunks = citationsSpec chunks := by
  induction chunks with
  | nil => rfl
  | cons c cs ih =>
    simp only [renderedCitations, renderedCitationItems, citationsSpec,
      List.map_cons, List.filterMap_cons, List.filter_cons] at ih ⊢
    cases h : c.web <;> simp [h, ih]

theorem renderedCitations_cons (c : GroundingChunk)
    (cs : List GroundingChunk) :
    renderedCitations (c :: cs)
      = match c.web with
        | none => renderedCitations cs
        | some w => citeOfWeb w :: renderedCitations cs := by
  cases h : c.web <;>
    simp [renderedCitations, renderedCitationItems, h]

theorem renderedCitations_length (chunks : List GroundingChunk) :
    (renderedCitations chunks).length
      = chunks.countP fun c => c.web.isSome := by
  induction chunks with
  | nil => rfl
  | cons c cs ih =>
    rw [renderedCitations_cons, List.countP_cons]
    cases h : c.web <;> simp [h, ih]

theorem renderChunks_ok (chunks : List GroundingChunk)
    (h : (chunks.all fun c =>
        c.web.elim true fun w => (urlHostname w.uri).isSome) = true) :
    ∃ items, renderChunks chunks = Except.ok items := by
  induction chunks with
  | nil => exact ⟨[], rfl⟩
  | cons c cs ih =>
    rw [List.all_cons, Bool.and_eq_true] at h
    obtain ⟨items, hitems⟩ := ih h.2
    cases hw : c.web with
    | none =>
      refine ⟨none :: items, ?_⟩
      simp only [renderChunks, renderChunk, hw, hitems]
      rfl
    | some w =>
      have hs : (urlHostname w.uri).isSome = true := by
        simpa [hw] using h.1
      obtain ⟨host, hh⟩ := Option.isSome_iff_exists.mp hs
      refine ⟨some { title := jsStrOr w.title "Untitled Source",
                     href := w.uri, hostname := host } :: items, ?_⟩
      simp only [renderChunks, renderChunk, hw, hh, hitems]
      rfl

/-! Claim theorems. -/

/-- C1: for every API response, the citation entries visible in the
rendered sidebar of the resulting SearchResult are exactly the
specification derivation — the chunk list filtered to the chunks carrying
web-source data, each mapped to its Citation — and their number equals
the number of web-carrying chunks, so a chunk lacking a web field is
excluded from the list rather than mapped to a placeholder. -/
theorem citations_filter_web (resp : GenerateContentResponse) :
    renderedCitations (mkSearchResult resp).chunks
        = citationsSpec (mkSearchResult resp).chunks ∧
      (renderedCitations (mkSearchResult resp).chunks).length
        = ((mkSearchResult resp).chunks.countP fun c => c.web.isSome) :=
  ⟨renderedCitations_eq_spec _, renderedCitations_length _⟩

/-- C4: for every topic whose trimmed value is empty, submit is a no-op:
the state keeps its prior value in all three fields and no external call
is issued, whatever the outcome of a call would have been. -/
theorem submit_noop_on_blank (s : AppState) (topic : String) (o : Outcome)
    (h : jsTrim topic = "") :
    handleSearch s topic o = (s, []) := by
  simp [handleSearch, h]

/-- C4 witness: a whitespace-only topic leaves the initial state
untouched and issues no call. -/
theorem submit_noop_on_blank_witness :
    jsTrim "   " = "" ∧
      handleSearch initState "   " (Outcome.failure none) = (initState, []) :=
  ⟨by decide, submit_noop_on_blank initState "   " (Outcome.failure none)
    (by decide)⟩

/-- C9: for every successful response whose primary text field is absent
or empty, the resulting SearchResult text is the literal sentinel
string. -/
theorem fallback_text_sentinel (resp : GenerateContentResponse)
    (h : resp.text = none ∨ resp.text = some "") :
    (mkSearchResult resp).text = "No results found." := by
  rcases h with h | h <;> simp [mkSearchResult, extractText, jsStrOr, h]

/-- C9 witness: a response with undefined text yields the sentinel. -/
theorem fallback_text_sentinel_witness :
    ((⟨none, none⟩ : GenerateContentResponse).text = none ∨
        (⟨none, none⟩ : GenerateContentResponse).text = some "") ∧
      (mkSearchResult ⟨none, none⟩).text = "No results found." :=
  ⟨Or.inl rfl, fallback_text_sentinel ⟨none, none⟩ (Or.inl rfl)⟩

/-- C10: a web chunk with a uri but an absent or empty title is displayed
with the fallback title, both as the mapped Citation and as the visible
sidebar entry. -/
theorem untitled_source_fallback (uri : String) (t : Option String)
    (h : t = none ∨ t = some "") :
    (citeOfWeb { uri := uri, title := t }).title = "Untitled Source" ∧
      renderedCitations [{ web := some { uri := uri, title := t } }]
        = [{ uri := uri, title := "Untitled Source" }] := by
  rcases h with h | h <;>
    simp [citeOfWeb, jsStrOr, renderedCitations, renderedCitationItems, h]

/-- C10 witness: a concrete web chunk with an empty title renders with
the fallback title. -/
theorem untitled_source_fallback_witness :
    ((some "" : Option String) = none ∨ (some "" : Option String) = some "") ∧
      ((citeOfWeb { uri := "https://example.com", title := some "" }).title
          = "Untitled Source" ∧
        renderedCitations
            [{ web := some { uri := "https://example.com", title := some "" } }]
          = [{ uri := "https://example.com", title := "Untitled Source" }]) :=
  ⟨Or.inr rfl,
    untitled_source_fallback "https://example.com" (some "") (Or.inr rfl)⟩

/-- C8: if the external call returns nonempty text T and a grounding
chunk list that is empty, the resulting SearchResult is exactly
(T, empty citation list). -/
theorem roundtrip_text_empty_chunks (resp : GenerateContentResponse)
    (T : String) (hT : T ≠ "") (htext : resp.text = some T)
    (hchunks : extractChunks resp = []) :
    mkSearchResult resp = { text := T, chunks := [] } := by
  simp [mkSearchResult, extractText, htext, jsStrOr, hT, hchunks]

/-- C8 witness: a response with text and an empty groundingChunks array
round-trips to that text and no citations. -/
theorem roundtrip_text_empty_chunks_witness :
    ("Results" ≠ "" ∧
        (⟨some "Results", some [⟨some ⟨some []⟩⟩]⟩ :
            GenerateContentResponse).text = some "Results" ∧
        extractChunks ⟨some "Results", some [⟨some ⟨some []⟩⟩]⟩ = []) ∧
      mkSearchResult ⟨some "Results", some [⟨some ⟨some []⟩⟩]⟩
        = { text := "Results", chunks := [] } :=
  ⟨⟨by decide, rfl, rfl⟩,
    roundtrip_text_empty_chunks ⟨some "Results", some [⟨some ⟨some []⟩⟩]⟩
      "Results" (by decide) rfl rfl⟩

/-- C5: every failure of the external call on a valid submit resolves to
the Failed state whose message is the error message when that message is
truthy and the generic fallback otherwise; in particular a rejection
with message "quota exceeded" yields exactly that message, and an absent
message yields the fallback. -/
theorem failure_sets_error_message (s : AppState) (topic : String)
    (m : Option String) (h : jsTrim topic ≠ "") :
    (handleSearch s topic (Outcome.failure m)).1 = failedState m ∧
      (failedState m).error = jsStrOr m genericErrorMessage ∧
      (handleSearch s topic (Outcome.failure (some "quota exceeded"))).1
        = { loading := false, result := none, error := "quota exceeded" } ∧
      (failedState none).error = genericErrorMessage := by
  refine ⟨by simp [handleSearch, h], rfl, ?_, rfl⟩
  simp [handleSearch, h, failedState, jsStrOr]

/-- C5 witness: a concrete valid submit whose call rejects with message
"quota exceeded" ends in Failed with that exact message. -/
theorem failure_sets_error_message_witness :
    jsTrim "ai" ≠ "" ∧
      ((handleSearch initState "ai"
            (Outcome.failure (some "quota exceeded"))).1
          = failedState (some "quota exceeded") ∧
        (failedState (some "quota exceeded")).error
          = jsStrOr (some "quota exceeded") genericErrorMessage ∧
        (handleSearch initState "ai"
            (Outcome.failure (some "quota exceeded"))).1
          = { loading := false, result := none, error := "quota exceeded" } ∧
        (failedState none).error = genericErrorMessage) :=
  ⟨by decide,
    failure_sets_error_message initState "ai" (some "quota exceeded")
      (by decide)⟩

/-- C7: on a submit with valid input the synchronous prefix of the
handler (lines 31-33, run before the external call is awaited) moves any
prior state to the loading state, with the previous result and error
payload cleared, and this is the lifecycle step taken from the prior
state. -/
theorem submit_clears_previous_payload (s : AppState) (topic : String)
    (h : jsTrim topic ≠ "") :
    beginSubmit s = loadingState ∧
      (beginSubmit s).result = none ∧
      (beginSubmit s).error = "" ∧
      (beginSubmit s).loading = true ∧
      Step s loadingState :=
  ⟨rfl, rfl, rfl, rfl, Step.submit s topic h⟩

/-- C7 witness: submitting from a concrete Succeeded state discards its
result payload before the new call. -/
theorem submit_clears_previous_payload_witness :
    jsTrim "ai" ≠ "" ∧
      (beginSubmit { loading := false,
                     result := some { text := "old", chunks := [] },
                     error := "" } = loadingState ∧
        (beginSubmit { loading := false,
                       result := some { text := "old", chunks := [] },
                       error := "" }).result = none ∧
        (beginSubmit { loading := false,
                       result := some { text := "old", chunks := [] },
                       error := "" }).error = "" ∧
        (beginSubmit { loading := false,
                       result := some { text := "old", chunks := [] },
                       error := "" }).loading = true ∧
        Step { loading := false,
               result := some { text := "old", chunks := [] },
               error := "" } loadingState) :=
  ⟨by decide,
    submit_clears_previous_payload
      { loading := false, result := some { text := "old", chunks := [] },
        error := "" } "ai" (by decide)⟩

/-- C3: on every submit with a valid topic exactly one external call is
issued; its prompt is the deterministic template instantiated with the
topic, so the prompt contains the literal topic text between the two
fixed template parts, and the fixed parts literally ask for 5 sources
published in the last 5 years, per-item title, authors if available,
year, a relevance summary, and markdown formatting. -/
theorem submit_prompt_properties (s : AppState) (topic : String)
    (o : Outcome) (h : jsTrim topic ≠ "") :
    (handleSearch s topic o).2 = [callFor topic] ∧
      (callFor topic).contents = buildPrompt topic ∧
      buildPrompt topic = promptPre ++ topic ++ promptSuf ∧
      List.IsInfix topic.data (buildPrompt topic).data ∧
      strContains promptPre "Find 5 high-quality research articles" = true ∧
      strContains promptPre "published in the last 5 years" = true ∧
      strContains promptSuf "1. Title" = true ∧
      strContains promptSuf "2. Authors (if available)" = true ∧
      strContains promptSuf "3. Year" = true ∧
      strContains promptSuf "why it is relevant" = true ∧
      strContains promptSuf "Use Markdown formatting" = true := by
  refine ⟨?_, rfl, rfl, ?_, by decide, by decide, by decide, by decide,
    by decide, by decide, by decide⟩
  · unfold handleSearch
    rw [if_neg h]
    cases o <;> rfl
  · exact ⟨promptPre.data, promptSuf.data, by
      simp [buildPrompt, String.data_append]⟩

/-- C3 witness: a concrete valid submit issues exactly that one call,
with the concrete topic embedded in the prompt. -/
theorem submit_prompt_properties_witness :
    jsTrim "ai" ≠ "" ∧
      ((handleSearch initState "ai" (Outcome.success ⟨none, none⟩)).2
          = [callFor "ai"] ∧
        (callFor "ai").contents = buildPrompt "ai" ∧
        buildPrompt "ai" = promptPre ++ "ai" ++ promptSuf ∧
        List.IsInfix "ai".data (buildPrompt "ai").data ∧
        strContains promptPre "Find 5 high-quality research articles" = true ∧
        strContains promptPre "published in the last 5 years" = true ∧
        strContains promptSuf "1. Title" = true ∧
        strContains promptSuf "2. Authors (if available)" = true ∧
        strContains promptSuf "3. Year" = true ∧
        strContains promptSuf "why it is relevant" = true ∧
        strContains promptSuf "Use Markdown formatting" = true) :=
  ⟨by decide,
    submit_prompt_properties initState "ai" (Outcome.success ⟨none, none⟩)
      (by decide)⟩

/-- C6: every state reachable along the request lifecycle activates
exactly one RequestState variant — the result and error fields are never
populated together and neither is populated while loading — the initial
state is Idle, a submit with a valid topic steps any state to Loading,
and the call resolution steps Loading to Succeeded or Failed. -/
theorem requestState_invariant :
    (∀ s, Reachable s →
        variantCount s = 1 ∧ (s.result = none ∨ s.error = "") ∧
          (s.loading = true → s.result = none ∧ s.error = "")) ∧
      isIdleV initState = true ∧
      (∀ (s : AppState) (topic : String), jsTrim topic ≠ "" →
        Step s loadingState) ∧
      (∀ r, Step loadingState (succeededState r)) ∧
      (∀ m, Step loadingState (failedState m)) := by
  refine ⟨?_, by decide, fun s topic h => Step.submit s topic h,
    fun r => Step.resolveSuccess r, fun m => Step.resolveFailure m⟩
  intro s hs
  induction hs with
  | init => decide
  | step hr hstep ih =>
    cases hstep with
    | submit s topic h => decide
    | submitEmpty s topic h => exact ih
    | resolveSuccess r =>
      refine ⟨?_, Or.inr rfl, by simp [succeededState]⟩
      simp [variantCount, isIdleV, isLoadingV, isSucceededV, isFailedV,
        succeededState]
    | resolveFailure m =>
      have hne : jsStrOr m genericErrorMessage ≠ "" :=
        jsStrOr_ne_empty m genericErrorMessage (by decide)
      refine ⟨?_, Or.inl rfl, by simp [failedState]⟩
      simp [variantCount, isIdleV, isLoadingV, isSucceededV, isFailedV,
        failedState, bne_iff_ne, beq_iff_eq, hne]

/-- C6 witness: the invariant holds at the reachable initial state, and
the lifecycle steps exist at concrete instances. -/
theorem requestState_invariant_witness :
    (variantCount initState = 1 ∧
        (initState.result = none ∨ initState.error = "") ∧
        (initState.loading = true →
          initState.result = none ∧ initState.error = "")) ∧
      Step initState loadingState ∧
      Step loadingState (succeededState ⟨none, none⟩) ∧
      Step loadingState (failedState none) :=
  ⟨requestState_invariant.1 initState Reachable.init,
    requestState_invariant.2.2.1 initState "ai" (by decide),
    requestState_invariant.2.2.2.1 ⟨none, none⟩,
    requestState_invariant.2.2.2.2 none⟩

/-- C2 counterexample: rendering a Succeeded SearchResult containing a
web chunk whose uri is not a parseable URL throws from the URL
constructor of the hostname line (line 343), so rendering a Succeeded
result can throw and the claim as stated is false. -/
theorem render_throws_on_unparseable_uri :
    (renderResult { text := "text",
                    chunks := [{ web := some { uri := "not a url",
                                               title := some "T" } }] }).isOk
      = false := by
  decide

/-- C2 amended: every failure of the awaited external call on a valid
submit is caught at the adapter boundary and converted into the Failed
state, and rendering a Succeeded result does not throw provided every
web chunk uri is a parseable URL. -/
theorem submit_catches_and_render_ok (s : AppState) (topic : String)
    (m : Option String) (res : SearchResult)
    (ht : jsTrim topic ≠ "")
    (hu : (res.chunks.all fun c =>
        c.web.elim true fun w => (urlHostname w.uri).isSome) = true) :
    (handleSearch s topic (Outcome.failure m)).1 = failedState m ∧
      (renderResult res).isOk = true := by
  constructor
  · simp [handleSearch, ht]
  · obtain ⟨items, hi⟩ := renderChunks_ok res.chunks hu
    simp only [renderResult, hi]
    rfl

/-- C2 amended witness: a concrete failing submit ends Failed, and a
concrete result whose web chunk uris all parse renders without a
throw. -/
theorem submit_catches_and_render_ok_witness :
    (jsTrim "ai" ≠ "" ∧
        (([⟨none⟩, ⟨some ⟨"https://example.com/p", some "T"⟩⟩] :
              List GroundingChunk).all fun c =>
            c.web.elim true fun w => (urlHostname w.uri).isSome) = true) ∧
      ((handleSearch initState "ai" (Outcome.failure (some "boom"))).1
          = failedState (some "boom") ∧
        (renderResult { text := "t",
                        chunks := [⟨none⟩,
                          ⟨some ⟨"https://example.com/p", some "T"⟩⟩] }).isOk
          = true) :=
  ⟨⟨by decide, by decide⟩,
    submit_catches_and_render_ok initState "ai" (some "boom")
      { text := "t",
        chunks := [⟨none⟩, ⟨some ⟨"https://example.com/p", some "T"⟩⟩] }
      (by decide) (by decide)⟩

end FTP
